import Mathlib

/-!
Verification of the Concurrency code-sample repository.

The repository contains four Python modules:
  * `URLDownloadSynchronous.py` — sequential download loop;
  * `URLDownloadMultiThreaded.py` — thread pool with one session per thread;
  * `URLDownloadAsyncIO.py` — cooperative tasks, fire all then gather;
  * `Concurrency.py` — process pool, sum-of-squares CPU tests, menu loop.

Each module is shallowly embedded below.  Network I/O is modelled by an
environment function `net` mapping a URL to the byte length of its response
(or, in the exception-aware variants, to `Except String Nat`).  A function
call that prints is modelled by the event it would print; a Python function
body without a `return` statement denotes the Python value `None`, modelled
by `PyVal.none`.
-/

/-- The value a Python function hands back to its caller.  A body that falls
off the end (no `return` statement) yields `PyVal.none`. -/
inductive PyVal where
  | none
  | int (n : Int)
  | str (s : String)
  deriving DecidableEq, Repr

namespace URLDownloadSynchronous

/-- One `print(f"Read {len(response.content)} from {url}")` observation:
which URL was downloaded and how many bytes came back. -/
structure Event where
  url : String
  bytes : Nat
  deriving DecidableEq, Repr

/-- `downloadSite(url, session)`: performs `session.get(url)` and prints the
byte count.  The session is ambient (the caller's `requests.Session()`);
the network is the environment `net`. -/
def downloadSite (net : String → Nat) (url : String) : Event :=
  ⟨url, net url⟩

/-- The `for url in sites: downloadSite(url, session)` loop inside
`downloadAllSites`, as a recursion producing the trace of download events
in the order they happen. -/
def downloadLoop (net : String → Nat) : List String → List Event
  | [] => []
  | url :: rest => downloadSite net url :: downloadLoop net rest

/-- `downloadAllSites(sites)`: opens one session, runs the loop over all
sites, and (having no `return` statement) returns `None`. -/
def downloadAllSites (net : String → Nat) (sites : List String) :
    List Event × PyVal :=
  (downloadLoop net sites, PyVal.none)

/-- Exception-aware variant of the same loop: `net` may raise
(`Except.error`).  There is no `try`/`except` anywhere in
`downloadAllSites`, so an exception raised by `session.get` propagates out
of the `for` loop at once: the result is the trace of events completed
before the raise, together with the escaping exception if any. -/
def downloadLoopE (net : String → Except String Nat) :
    List String → List Event × Option String
  | [] => ([], Option.none)
  | url :: rest =>
    match net url with
    | Except.error e => ([], Option.some e)
    | Except.ok n =>
      let step := downloadLoopE net rest
      (⟨url, n⟩ :: step.1, step.2)

/-- Whether a network response succeeded. -/
def netOk (r : Except String Nat) : Bool :=
  match r with
  | Except.ok _ => true
  | Except.error _ => false

/-- The hardcoded URL list of `testConcurrency1IOBoundSynchronous`:
`["https://www.jython.org", "http://olympus.realpython.org/dice"] * 80`. -/
def testSites : List String :=
  (List.replicate 80
    ["https://www.jython.org", "http://olympus.realpython.org/dice"]).flatten

end URLDownloadSynchronous

namespace Concurrency

/-- `sumOfSquares(number)`: `sum(i * i for i in range(number))`. -/
def sumOfSquares (number : Nat) : Nat :=
  ((List.range number).map (fun i => i * i)).sum

/-- The `for number in numbers: sumOfSquares(number)` loop inside
`findSums`: the trace of calls made to `sumOfSquares`, each paired with the
value it computed (which the loop discards). -/
def findSumsLoop : List Nat → List (Nat × Nat)
  | [] => []
  | number :: rest => (number, sumOfSquares number) :: findSumsLoop rest

/-- `findSums(numbers)`: runs the loop; having no `return` statement it
returns `None`. -/
def findSums (numbers : List Nat) : List (Nat × Nat) × PyVal :=
  (findSumsLoop numbers, PyVal.none)

/-- `findSumsMultiProcessing(numbers)`: `pool.map(sumOfSquares, numbers)`
applies `sumOfSquares` to every element, collecting results in input order;
the list is discarded and the function returns `None`. -/
def findSumsMultiProcessing (numbers : List Nat) : List Nat × PyVal :=
  (numbers.map sumOfSquares, PyVal.none)

/-- The per-process global state of `Concurrency.py`: the module-level
`session` variable (`None` until set — modelled as `Option Nat` holding a
session identifier) together with a supply of fresh session identifiers so
that distinct `requests.Session()` calls yield distinct sessions. -/
structure GlobalState where
  session : Option Nat
  nextId : Nat
  deriving DecidableEq, Repr

/-- `setGlobalSession()`: `if not session: session = requests.Session()`.
A fresh session is created only when the global `session` is unset
(`None`, which is falsy); otherwise the state is left unchanged. -/
def setGlobalSession (g : GlobalState) : GlobalState :=
  match g.session with
  | Option.some _ => g
  | Option.none => ⟨Option.some g.nextId, g.nextId + 1⟩

/-- `downloadAllSites(sites)` of `Concurrency.py`:
`pool.map(downloadSite, sites)` submits every site exactly once to the
process pool (each worker having been initialized by `setGlobalSession`);
the function body has no `return` statement, so it returns `None`. -/
def downloadAllSites (sites : List String) : List String × PyVal :=
  (sites, PyVal.none)

/-- The hardcoded input of `testConcurrency5CPUBoundSynchronous`:
`[3_000_000 + x for x in range(20)]`. -/
def testNumbers : List Nat :=
  (List.range 20).map (fun x => 3000000 + x)

/-- The hardcoded URL list of `testConcurrency4IOBoundMultiProcessing`:
`["https://www.jython.org", "http://olympus.realpython.org/dice"] * 80`. -/
def testSites : List String :=
  (List.replicate 80
    ["https://www.jython.org", "http://olympus.realpython.org/dice"]).flatten

/-- The valid menu selections of `getProcessSelection`:
`['1', '2', '3', '4', '5', '6']`. -/
def validChoices : List String := ["1", "2", "3", "4", "5", "6"]

/-- `getProcessSelection()` run against a stream of user inputs.  Each loop
iteration consumes one `input(...)`.  An input in `validChoices` hits the
`break` and is returned; the input `"q"` falls through the `continue` and
ends the `while processSelection != 'q'` loop, so `"q"` is returned; any
other input prints "INVALID SELECTION!" and loops again.  If the stream is
exhausted before a valid selection or `"q"` appears, the loop never
returns (`Option.none`). -/
def getProcessSelection : List String → Option String
  | [] => Option.none
  | s :: rest =>
    if s ∈ validChoices then Option.some s
    else if s = "q" then Option.some s
    else getProcessSelection rest

end Concurrency

namespace URLDownloadMultiThreaded

/-- One print observation of the multithreaded `downloadSite`: the URL, the
session the thread used for it, and the byte count read. -/
structure Event where
  url : String
  sessionId : Nat
  bytes : Nat
  deriving DecidableEq, Repr

/-- The `threading.local()` state of one pool thread: whether the thread
already has a `session` attribute (and which session it holds), plus a
supply of fresh session identifiers so that distinct `requests.Session()`
calls yield distinct sessions. -/
structure ThreadState where
  session : Option Nat
  nextId : Nat
  deriving DecidableEq, Repr

/-- `getSession()`: `if not hasattr(threadLocal, "session"):
threadLocal.session = requests.Session()` then `return
threadLocal.session`.  On a thread without a stored session it creates a
fresh one and stores it; otherwise it returns the stored session and
leaves the thread-local state untouched. -/
def getSession (st : ThreadState) : Nat × ThreadState :=
  match st.session with
  | Option.some s => (s, st)
  | Option.none => (st.nextId, ⟨Option.some st.nextId, st.nextId + 1⟩)

/-- The multithreaded `downloadSite(url)`: fetches the thread's session via
`getSession`, then performs `session.get(url)` and prints the byte count.
The network environment `net` may depend on which session is used. -/
def downloadSite (net : Nat → String → Nat) (url : String)
    (st : ThreadState) : Event × ThreadState :=
  let step := getSession st
  (⟨url, step.1, net step.1 url⟩, step.2)

/-- One pool thread working through the items the executor hands it, in
order: each item is processed by `downloadSite`, threading the
thread-local state along. -/
def runWorker (net : Nat → String → Nat) :
    List String → ThreadState → List Event × ThreadState
  | [], st => ([], st)
  | url :: rest, st =>
    let step := downloadSite net url st
    let tail := runWorker net rest step.2
    (step.1 :: tail.1, tail.2)

/-- The `max_workers=5` configuration of the
`concurrent.futures.ThreadPoolExecutor` in `downloadAllSites`. -/
def maxWorkers : Nat := 5

/-- `downloadAllSites(sites)`: `executor.map(downloadSite, sites)` submits
every element of `sites` to the pool exactly once, in order; the function
body has no `return` statement, so it returns `None`. -/
def downloadAllSites (sites : List String) : List String × PyVal :=
  (sites, PyVal.none)

/-- The hardcoded URL list of `testConcurrency2IOBoundThreaded`:
`["https://www.jython.org", "http://olympus.realpython.org/dice"] * 80`. -/
def testSites : List String :=
  (List.replicate 80
    ["https://www.jython.org", "http://olympus.realpython.org/dice"]).flatten

end URLDownloadMultiThreaded

namespace URLDownloadAsyncIo

/-- The scheduler-visible actions of the asyncio `downloadAllSites`:
creating one task (`asyncio.ensure_future(downloadSite(session, url))`)
for a URL, and the single `await asyncio.gather(*tasks, ...)` over the
accumulated task list. -/
inductive AioEvent where
  | createTask (url : String)
  | awaitGather (tasks : List String)
  deriving DecidableEq, Repr

/-- The `for url in sites:` loop of the asyncio `downloadAllSites`: starting
from the accumulated `tasks` list, it appends one freshly created task per
URL, emitting a `createTask` event for each, and hands back the final task
list.  No await happens inside this loop. -/
def taskLoop : List String → List String → List AioEvent × List String
  | [], tasks => ([], tasks)
  | url :: rest, tasks =>
    let tail := taskLoop rest (tasks ++ [url])
    (AioEvent.createTask url :: tail.1, tail.2)

/-- The asyncio `downloadAllSites(sites)` as the sequence of scheduler
actions it performs: run the task-creation loop starting from
`tasks = []`, then perform the one `await asyncio.gather(*tasks, ...)`;
the body has no `return` statement, so the coroutine returns `None`. -/
def downloadAllSites (sites : List String) : List AioEvent × PyVal :=
  let loop := taskLoop sites []
  (loop.1 ++ [AioEvent.awaitGather loop.2], PyVal.none)

/-- The asyncio `downloadSite(session, url)` under an exception-aware
network: its outcome is the download event on success, or the exception
value the coroutine raised. -/
def downloadSiteE (net : String → Except String Nat) (url : String) :
    Except String (String × Nat) :=
  match net url with
  | Except.ok n => Except.ok (url, n)
  | Except.error e => Except.error e

/-- `await asyncio.gather(*tasks, return_exceptions=True)`: one outcome per
task, in task-creation order; a task that raised contributes its exception
as a value instead of propagating, so the other tasks are unaffected. -/
def gatherResults (net : String → Except String Nat) (sites : List String) :
    List (Except String (String × Nat)) :=
  sites.map (downloadSiteE net)

/-- The hardcoded URL list of `testConcurrency3IOBoundAsyncIO`:
`["https://www.jython.org", "http://olympus.realpython.org/dice"] * 80`. -/
def testSites : List String :=
  (List.replicate 80
    ["https://www.jython.org", "http://olympus.realpython.org/dice"]).flatten

end URLDownloadAsyncIo

/-- The network used in counterexamples: the URL `"a"` raises, every other
URL responds with 7 bytes. -/
def failOnA : String → Except String Nat :=
  fun u => if u = "a" then Except.error "boom" else Except.ok 7

/-! ## Helper lemmas -/

/-- The sequential download loop is the elementwise application of
`downloadSite` to the site list. -/
theorem URLDownloadSynchronous.downloadLoop_eq_map (net : String → Nat) :
    ∀ sites : List String,
      URLDownloadSynchronous.downloadLoop net sites
        = sites.map (URLDownloadSynchronous.downloadSite net)
  | [] => rfl
  | _ :: rest => by
    simp [URLDownloadSynchronous.downloadLoop,
      URLDownloadSynchronous.downloadLoop_eq_map net rest]

/-- The URLs of the sequential download trace are the input list itself. -/
theorem URLDownloadSynchronous.downloadLoop_map_url (net : String → Nat)
    (sites : List String) :
    (URLDownloadSynchronous.downloadLoop net sites).map
        URLDownloadSynchronous.Event.url = sites := by
  rw [URLDownloadSynchronous.downloadLoop_eq_map, List.map_map]
  have h : (URLDownloadSynchronous.Event.url ∘
      URLDownloadSynchronous.downloadSite net) = id := by
    funext u
    rfl
  rw [h, List.map_id]

/-- The `findSums` loop is the elementwise pairing of each number with its
sum of squares. -/
theorem Concurrency.findSumsLoop_eq_map :
    ∀ numbers : List Nat,
      Concurrency.findSumsLoop numbers
        = numbers.map (fun n => (n, Concurrency.sumOfSquares n))
  | [] => rfl
  | _ :: rest => by
    simp [Concurrency.findSumsLoop, Concurrency.findSumsLoop_eq_map rest]

/-- With an exception-aware network, the sequential loop processes exactly
the longest prefix of sites on which the network succeeds: the first raise
escapes the loop and nothing after it runs. -/
theorem URLDownloadSynchronous.downloadLoopE_map_url
    (net : String → Except String Nat) :
    ∀ sites : List String,
      (URLDownloadSynchronous.downloadLoopE net sites).1.map
          URLDownloadSynchronous.Event.url
        = sites.takeWhile (fun u => URLDownloadSynchronous.netOk (net u))
  | [] => rfl
  | url :: rest => by
    cases h : net url with
    | error e =>
      simp [URLDownloadSynchronous.downloadLoopE, h, List.takeWhile_cons,
        URLDownloadSynchronous.netOk]
    | ok n =>
      simp [URLDownloadSynchronous.downloadLoopE, h, List.takeWhile_cons,
        URLDownloadSynchronous.netOk,
        URLDownloadSynchronous.downloadLoopE_map_url net rest]

/-- The asyncio task-creation loop emits one `createTask` event per URL, in
order, and appends the URLs to the accumulated task list; it never awaits. -/
theorem URLDownloadAsyncIo.taskLoop_eq :
    ∀ (sites tasks : List String),
      URLDownloadAsyncIo.taskLoop sites tasks
        = (sites.map URLDownloadAsyncIo.AioEvent.createTask, tasks ++ sites)
  | [], tasks => by simp [URLDownloadAsyncIo.taskLoop]
  | url :: rest, tasks => by
    simp [URLDownloadAsyncIo.taskLoop,
      URLDownloadAsyncIo.taskLoop_eq rest (tasks ++ [url])]

/-- A pool thread that already owns a session processes every item with
that same session and never touches its thread-local state. -/
theorem URLDownloadMultiThreaded.runWorker_some (net : Nat → String → Nat)
    (s nid : Nat) :
    ∀ urls : List String,
      URLDownloadMultiThreaded.runWorker net urls ⟨Option.some s, nid⟩
        = (urls.map (fun u => ⟨u, s, net s u⟩), ⟨Option.some s, nid⟩)
  | [] => rfl
  | url :: rest => by
    simp [URLDownloadMultiThreaded.runWorker,
      URLDownloadMultiThreaded.downloadSite,
      URLDownloadMultiThreaded.getSession,
      URLDownloadMultiThreaded.runWorker_some net s nid rest]

/-- Whatever thread-local state a pool thread starts from, the URLs of the
events it produces are exactly the items it was handed, in order. -/
theorem URLDownloadMultiThreaded.runWorker_map_url (net : Nat → String → Nat) :
    ∀ (urls : List String) (st : URLDownloadMultiThreaded.ThreadState),
      (URLDownloadMultiThreaded.runWorker net urls st).1.map
          URLDownloadMultiThreaded.Event.url = urls
  | [], _ => rfl
  | url :: rest, st => by
    simp [URLDownloadMultiThreaded.runWorker,
      URLDownloadMultiThreaded.downloadSite,
      URLDownloadMultiThreaded.runWorker_map_url net rest]

/-- The asyncio scheduler trace in closed form: one `createTask` per URL in
input order, then the single `awaitGather` over the whole input. -/
theorem URLDownloadAsyncIo.downloadAllSites_trace (sites : List String) :
    (URLDownloadAsyncIo.downloadAllSites sites).1
      = sites.map URLDownloadAsyncIo.AioEvent.createTask
          ++ [URLDownloadAsyncIo.AioEvent.awaitGather sites] := by
  rw [URLDownloadAsyncIo.downloadAllSites,
    URLDownloadAsyncIo.taskLoop_eq sites []]
  rfl

/-- `AioEvent.createTask` is injective: distinct URLs give distinct
task-creation events. -/
theorem URLDownloadAsyncIo.createTask_injective :
    Function.Injective URLDownloadAsyncIo.AioEvent.createTask := by
  intro a b h
  injection h

/-- Peeling the last square off the range sum. -/
theorem Concurrency.sumOfSquares_succ (n : Nat) :
    Concurrency.sumOfSquares (n + 1) = Concurrency.sumOfSquares n + n * n := by
  simp [Concurrency.sumOfSquares, List.range_succ]

/-- Subtraction-free closed form of six times the sum of squares. -/
theorem Concurrency.six_mul_sumOfSquares_succ :
    ∀ m : Nat, 6 * Concurrency.sumOfSquares (m + 1)
      = (m + 1) * m * (2 * m + 1)
  | 0 => by decide
  | m + 1 => by
    rw [Concurrency.sumOfSquares_succ (m + 1), Nat.mul_add,
      Concurrency.six_mul_sumOfSquares_succ m]
    ring

/-- Closed form of six times the sum of squares. -/
theorem Concurrency.six_mul_sumOfSquares (n : Nat) :
    6 * Concurrency.sumOfSquares n = n * (n - 1) * (2 * n - 1) := by
  cases n with
  | zero => decide
  | succ m =>
    have h1 : m + 1 - 1 = m := rfl
    have h2 : 2 * (m + 1) - 1 = 2 * m + 1 := by omega
    rw [h1, h2, Concurrency.six_mul_sumOfSquares_succ m]

/-! ## Claims -/

/-- C1: for every input list and for every strategy, the batch runner
invokes the per-item work function exactly once per element — no item is
skipped and none is processed twice.  Sequential: per-URL counts of the
synchronous download trace, and per-number counts of the `findSums` call
trace, equal the input counts.  Thread-Pool: `executor.map` submits each
site exactly once, and a worker processes each item it is handed exactly
once, from any starting thread-local state.  Cooperative-Task: exactly one
task is created per URL, and `gather` yields exactly one outcome per task.
Process-Pool: `pool.map` submits each site exactly once, and produces
exactly one `sumOfSquares` result per number, at that number's position. -/
theorem C1_work_invoked_once_per_item :
    (∀ (net : String → Nat) (sites : List String) (u : String),
      ((URLDownloadSynchronous.downloadAllSites net sites).1.map
          URLDownloadSynchronous.Event.url).count u = sites.count u) ∧
    (∀ (numbers : List Nat) (n : Nat),
      ((Concurrency.findSums numbers).1.map Prod.fst).count n
        = numbers.count n) ∧
    (∀ (sites : List String) (u : String),
      (URLDownloadMultiThreaded.downloadAllSites sites).1.count u
        = sites.count u) ∧
    (∀ (net : Nat → String → Nat) (urls : List String)
        (st : URLDownloadMultiThreaded.ThreadState) (u : String),
      ((URLDownloadMultiThreaded.runWorker net urls st).1.map
          URLDownloadMultiThreaded.Event.url).count u = urls.count u) ∧
    (∀ (sites : List String) (u : String),
      (URLDownloadAsyncIo.downloadAllSites sites).1.count
          (URLDownloadAsyncIo.AioEvent.createTask u) = sites.count u) ∧
    (∀ (net : String → Except String Nat) (sites : List String),
      (URLDownloadAsyncIo.gatherResults net sites).length = sites.length) ∧
    (∀ (sites : List String) (u : String),
      (Concurrency.downloadAllSites sites).1.count u = sites.count u) ∧
    (∀ (numbers : List Nat) (i : Nat),
      (Concurrency.findSumsMultiProcessing numbers).1[i]?
        = (numbers[i]?).map Concurrency.sumOfSquares) := by
  refine ⟨?_, ?_, ?_, ?_, ?_, ?_, ?_, ?_⟩
  · intro net sites u
    rw [URLDownloadSynchronous.downloadAllSites,
      URLDownloadSynchronous.downloadLoop_map_url]
  · intro numbers n
    rw [Concurrency.findSums, Concurrency.findSumsLoop_eq_map, List.map_map]
    have h : (Prod.fst ∘ fun n => (n, Concurrency.sumOfSquares n))
        = (id : Nat → Nat) := by
      funext m
      rfl
    rw [h, List.map_id]
  · intro sites u
    rfl
  · intro net urls st u
    rw [URLDownloadMultiThreaded.runWorker_map_url]
  · intro sites u
    rw [URLDownloadAsyncIo.downloadAllSites_trace, List.count_append,
      List.count_map_of_injective _ _ URLDownloadAsyncIo.createTask_injective]
    simp
  · intro net sites
    simp [URLDownloadAsyncIo.gatherResults]
  · intro sites u
    rfl
  · intro numbers i
    simp [Concurrency.findSumsMultiProcessing]

/-- C2 counterexample: under the Sequential strategy a raising item aborts
the run.  With a network that raises on `"a"` and succeeds on `"b"`, the
synchronous loop over `["a", "b"]` processes nothing at all — `"b"` would
have succeeded, yet it is never downloaded, and the exception escapes —
refuting the claim that the remaining items are still processed. -/
theorem C2_sequential_not_isolated_counterexample :
    URLDownloadSynchronous.netOk (failOnA "b") = true ∧
    (URLDownloadSynchronous.downloadLoopE failOnA ["a", "b"]).1 = [] ∧
    (URLDownloadSynchronous.downloadLoopE failOnA ["a", "b"]).2
      = Option.some "boom" := by
  decide

/-- C2 amended: failure isolation holds for the Cooperative-Task strategy —
`gather` with `return_exceptions=True` yields exactly one outcome per task,
each determined by its own URL alone — but not for the Sequential strategy:
the synchronous `downloadAllSites` has no exception handling, so exactly
the items before the first raising one are processed and the rest are
abandoned. -/
theorem C2_failure_isolation_amended :
    (∀ (net : String → Except String Nat) (sites : List String),
      (URLDownloadAsyncIo.gatherResults net sites).length = sites.length) ∧
    (∀ (net : String → Except String Nat) (sites : List String) (i : Nat),
      (URLDownloadAsyncIo.gatherResults net sites)[i]?
        = (sites[i]?).map (URLDownloadAsyncIo.downloadSiteE net)) ∧
    (∀ (net : String → Except String Nat) (sites : List String),
      (URLDownloadSynchronous.downloadLoopE net sites).1.map
          URLDownloadSynchronous.Event.url
        = sites.takeWhile (fun u => URLDownloadSynchronous.netOk (net u))) := by
  refine ⟨?_, ?_, ?_⟩
  · intro net sites
    simp [URLDownloadAsyncIo.gatherResults]
  · intro net sites i
    simp [URLDownloadAsyncIo.gatherResults]
  · intro net sites
    exact URLDownloadSynchronous.downloadLoopE_map_url net sites

/-- C3: under the Sequential strategy, items are processed and their
results produced in exactly the input order: the URL sequence of the
synchronous download trace is the input list itself. -/
theorem C3_sequential_preserves_order :
    ∀ (net : String → Nat) (sites : List String),
      (URLDownloadSynchronous.downloadAllSites net sites).1.map
          URLDownloadSynchronous.Event.url = sites := by
  intro net sites
  rw [URLDownloadSynchronous.downloadAllSites]
  exact URLDownloadSynchronous.downloadLoop_map_url net sites

/-- C4: a thread's session is created at most once and reused.  On a thread
without a stored session, `getSession` creates one and stores it; on a
thread with one, it returns the stored session and changes nothing; hence
`getSession` is idempotent per thread, and a worker running any list of
items uses its single first-call session for every item, creating at most
one session in total. -/
theorem C4_session_once_per_thread :
    ∀ st : URLDownloadMultiThreaded.ThreadState,
      (st.session = Option.none →
        URLDownloadMultiThreaded.getSession st
          = (st.nextId, ⟨Option.some st.nextId, st.nextId + 1⟩)) ∧
      (∀ s, st.session = Option.some s →
        URLDownloadMultiThreaded.getSession st = (s, st)) ∧
      (URLDownloadMultiThreaded.getSession
          (URLDownloadMultiThreaded.getSession st).2
        = ((URLDownloadMultiThreaded.getSession st).1,
           (URLDownloadMultiThreaded.getSession st).2)) ∧
      (∀ (net : Nat → String → Nat) (urls : List String),
        (∀ e ∈ (URLDownloadMultiThreaded.runWorker net urls st).1,
          e.sessionId = (URLDownloadMultiThreaded.getSession st).1) ∧
        (URLDownloadMultiThreaded.runWorker net urls st).2.nextId
          ≤ st.nextId + 1) := by
  intro st
  obtain ⟨sess, nid⟩ := st
  cases sess with
  | none =>
    refine ⟨fun _ => rfl, ?_, rfl, ?_⟩
    · intro s h
      cases h
    intro net urls
    cases urls with
    | nil => exact ⟨fun e he => absurd he (List.not_mem_nil e), Nat.le_succ nid⟩
    | cons url rest =>
      constructor
      · intro e he
        rw [URLDownloadMultiThreaded.runWorker] at he
        simp only [URLDownloadMultiThreaded.downloadSite,
          URLDownloadMultiThreaded.getSession,
          URLDownloadMultiThreaded.runWorker_some, List.mem_cons,
          List.mem_map] at he
        rcases he with h | ⟨u, _, h⟩
        · rw [h]
          rfl
        · rw [← h]
          rfl
      · rw [URLDownloadMultiThreaded.runWorker]
        simp [URLDownloadMultiThreaded.downloadSite,
          URLDownloadMultiThreaded.getSession,
          URLDownloadMultiThreaded.runWorker_some]
  | some s =>
    refine ⟨?_, ?_, rfl, ?_⟩
    · intro h
      cases h
    · intro t h
      cases h
      rfl
    intro net urls
    rw [URLDownloadMultiThreaded.runWorker_some]
    constructor
    · intro e he
      simp only [List.mem_map] at he
      obtain ⟨u, _, h⟩ := he
      rw [← h]
      rfl
    · exact Nat.le_succ nid

/-- C4 witness: on a fresh thread the first `getSession` call creates and
stores session 0; on a thread already holding session 5 it returns 5 and
leaves the state unchanged. -/
theorem C4_session_once_per_thread_witness :
    URLDownloadMultiThreaded.getSession ⟨Option.none, 0⟩
      = (0, ⟨Option.some 0, 1⟩) ∧
    URLDownloadMultiThreaded.getSession ⟨Option.some 5, 3⟩
      = (5, ⟨Option.some 5, 3⟩) :=
  ⟨(C4_session_once_per_thread ⟨Option.none, 0⟩).1 rfl,
   (C4_session_once_per_thread ⟨Option.some 5, 3⟩).2.1 5 rfl⟩

/-- C5: each process-pool worker initializes its shared session exactly
once: `setGlobalSession` creates a fresh session only when the global
`session` is unset, any call on an already-set state changes nothing, and
calling it twice equals calling it once. -/
theorem C5_global_session_set_once :
    ∀ g : Concurrency.GlobalState,
      (g.session = Option.none →
        Concurrency.setGlobalSession g
          = ⟨Option.some g.nextId, g.nextId + 1⟩) ∧
      (∀ s, g.session = Option.some s →
        Concurrency.setGlobalSession g = g) ∧
      Concurrency.setGlobalSession (Concurrency.setGlobalSession g)
        = Concurrency.setGlobalSession g := by
  intro g
  obtain ⟨sess, nid⟩ := g
  cases sess with
  | none =>
    refine ⟨fun _ => rfl, ?_, rfl⟩
    intro s h
    cases h
  | some s =>
    refine ⟨?_, ?_, rfl⟩
    · intro h
      cases h
    · intro t h
      cases h
      rfl

/-- C5 witness: on an unset global state `setGlobalSession` installs
session 0; on a state already holding session 2 it is the identity. -/
theorem C5_global_session_set_once_witness :
    Concurrency.setGlobalSession ⟨Option.none, 0⟩ = ⟨Option.some 0, 1⟩ ∧
    Concurrency.setGlobalSession ⟨Option.some 2, 7⟩ = ⟨Option.some 2, 7⟩ :=
  ⟨(C5_global_session_set_once ⟨Option.none, 0⟩).1 rfl,
   (C5_global_session_set_once ⟨Option.some 2, 7⟩).2.1 2 rfl⟩

/-- C6: `sumOfSquares n` is the sum of `i * i` for `i` ranging over
`0, 1, ..., n - 1`, and it equals the closed form `n * (n-1) * (2n-1) / 6`
(a pure function: its value depends on `n` alone). -/
theorem C6_sumOfSquares_closed_form :
    ∀ n : Nat,
      Concurrency.sumOfSquares n
        = ((List.range n).map (fun i => i * i)).sum ∧
      6 * Concurrency.sumOfSquares n = n * (n - 1) * (2 * n - 1) ∧
      Concurrency.sumOfSquares n = n * (n - 1) * (2 * n - 1) / 6 := by
  intro n
  refine ⟨rfl, Concurrency.six_mul_sumOfSquares n, ?_⟩
  rw [← Concurrency.six_mul_sumOfSquares n,
    Nat.mul_div_cancel_left _ (by norm_num : 0 < 6)]

set_option maxRecDepth 10000 in
/-- C7: the I/O-bound workload is the same 160-element list (two URLs, each
repeated 80 times) in all four strategies' tests, the thread pool is
configured with `max_workers = 5`, and the CPU-bound test processes
exactly 20 numbers, each below 3,000,020 (so each sum of squares ranges up
to 3,000,020). -/
theorem C7_test_workloads :
    URLDownloadSynchronous.testSites.length = 160 ∧
    URLDownloadMultiThreaded.testSites = URLDownloadSynchronous.testSites ∧
    URLDownloadAsyncIo.testSites = URLDownloadSynchronous.testSites ∧
    Concurrency.testSites = URLDownloadSynchronous.testSites ∧
    URLDownloadSynchronous.testSites.count "https://www.jython.org" = 80 ∧
    URLDownloadSynchronous.testSites.count
      "http://olympus.realpython.org/dice" = 80 ∧
    URLDownloadMultiThreaded.maxWorkers = 5 ∧
    Concurrency.testNumbers.length = 20 ∧
    (∀ n ∈ Concurrency.testNumbers, n < 3000020) := by
  decide

/-- C8: the menu loop returns only a valid selection or the quit input:
whenever `getProcessSelection` returns a value, that value is one of
`'1'..'6'` or `'q'`, and any other input merely causes a reprompt (the
loop continues on the remaining input stream without returning). -/
theorem C8_menu_returns_valid_or_quit :
    (∀ (inputs : List String) (r : String),
      Concurrency.getProcessSelection inputs = Option.some r →
        r ∈ Concurrency.validChoices ∨ r = "q") ∧
    (∀ (s : String) (rest : List String),
      s ∉ Concurrency.validChoices → s ≠ "q" →
        Concurrency.getProcessSelection (s :: rest)
          = Concurrency.getProcessSelection rest) := by
  constructor
  · intro inputs
    induction inputs with
    | nil =>
      intro r h
      cases h
    | cons s rest ih =>
      intro r h
      rw [Concurrency.getProcessSelection] at h
      by_cases hv : s ∈ Concurrency.validChoices
      · rw [if_pos hv] at h
        cases h
        exact Or.inl hv
      · rw [if_neg hv] at h
        by_cases hq : s = "q"
        · rw [if_pos hq] at h
          cases h
          exact Or.inr hq
        · rw [if_neg hq] at h
          exact ih r h
  · intro s rest hv hq
    rw [Concurrency.getProcessSelection, if_neg hv, if_neg hq]

/-- C8 witness: the invalid input `"x"` is reprompted and the valid input
`"3"` is then returned, so the returned value is in the valid set. -/
theorem C8_menu_returns_valid_or_quit_witness :
    ("3" ∈ Concurrency.validChoices ∨ "3" = "q") ∧
    Concurrency.getProcessSelection ["x", "3"]
      = Concurrency.getProcessSelection ["3"] :=
  ⟨C8_menu_returns_valid_or_quit.1 ["x", "3"] "3" (by decide),
   C8_menu_returns_valid_or_quit.2 "x" ["3"] (by decide) (by decide)⟩

/-- C9: the asyncio `downloadAllSites` launches every task before awaiting
any: its scheduler trace is one `createTask` per URL, in input order,
followed by the single `awaitGather` over all the tasks — the await is the
last of the `sites.length + 1` actions, so no task is awaited before all
are created. -/
theorem C9_fire_all_then_join_all :
    ∀ sites : List String,
      (URLDownloadAsyncIo.downloadAllSites sites).1
        = sites.map URLDownloadAsyncIo.AioEvent.createTask
            ++ [URLDownloadAsyncIo.AioEvent.awaitGather sites] ∧
      (URLDownloadAsyncIo.downloadAllSites sites).1.length
        = sites.length + 1 := by
  intro sites
  have h : (URLDownloadAsyncIo.downloadAllSites sites).1
      = sites.map URLDownloadAsyncIo.AioEvent.createTask
          ++ [URLDownloadAsyncIo.AioEvent.awaitGather sites] := by
    rw [URLDownloadAsyncIo.downloadAllSites,
      URLDownloadAsyncIo.taskLoop_eq sites []]
    rfl
  refine ⟨h, ?_⟩
  rw [h]
  simp

/-- C10: every batch runner returns `None` for every input — the
synchronous, multithreaded and asyncio `downloadAllSites`, `findSums` and
`findSumsMultiProcessing` all only print or discard per-item outcomes and
hand no result value back to the caller. -/
theorem C10_runners_return_none :
    (∀ (net : String → Nat) (sites : List String),
      (URLDownloadSynchronous.downloadAllSites net sites).2 = PyVal.none) ∧
    (∀ sites : List String,
      (URLDownloadMultiThreaded.downloadAllSites sites).2 = PyVal.none) ∧
    (∀ sites : List String,
      (URLDownloadAsyncIo.downloadAllSites sites).2 = PyVal.none) ∧
    (∀ numbers : List Nat,
      (Concurrency.findSums numbers).2 = PyVal.none) ∧
    (∀ numbers : List Nat,
      (Concurrency.findSumsMultiProcessing numbers).2 = PyVal.none) :=
  ⟨fun _ _ => rfl, fun _ => rfl, fun _ => rfl, fun _ => rfl, fun _ => rfl⟩

set_option maxRecDepth 10000 in
/-- C7 witness: 3,000,000 is one of the CPU-bound test's numbers, and it is
below 3,000,020. -/
theorem C7_test_workloads_witness :
    3000000 ∈ Concurrency.testNumbers ∧ (3000000 : Nat) < 3000020 :=
  ⟨by decide, C7_test_workloads.2.2.2.2.2.2.2.2 3000000 (by decide)⟩
